import Mathlib

/-!
Shallow embedding of `src/streamlit_app.py`: a Streamlit page that fetches one
day of NCEP/NCAR Reanalysis surface 2m air temperature from a yearly OPeNDAP
resource, crops it to the box 28–42°N × 120–135°E, and renders it as a
pseudocolor map.

Modelling conventions:
  * a grid cell value is `Option ℚ`; `none` models the IEEE NaN missing
    sentinel (the only operation the code performs on values is `np.isnan`);
  * coordinates and data values are rationals, timestamps are integers
    (an abstract linear time axis is all nearest-neighbour selection needs);
  * the remote world is an `Env`: what `xr.open_dataset(url)` and
    `xr.open_dataset(url, engine="pydap")` would each return, as `Except`
    values (an exception raised by the call is the `Except.error` case);
  * Streamlit effects (`st.error`, `st.info`) are modelled as an emitted
    message list next to the returned value.
-/

namespace StApp

/-- A cell value of the gridded variable; `none` models NaN (missing data). -/
abbrev Val := Option ℚ

/-- The remote yearly dataset behind
`https://psl.noaa.gov/thredds/dodsC/.../air.2m.gauss.{year}.nc`: a time axis,
latitude and longitude axes, the `air` variable indexed `[time][lat][lon]`,
and the variable's units attribute (the NCEP source stores kelvin, "degK"). -/
structure Dataset where
  times : List Int
  lat : List ℚ
  lon : List ℚ
  air : List (List (List Val))
  airUnits : String
deriving DecidableEq

/-- What the two `xr.open_dataset` attempts of `load_and_slice_data` would
return for the current request: the default engine and the pydap backup. -/
structure Env where
  openDefault : Except String Dataset
  openPydap : Except String Dataset

/-- Lines 53–58 of the source: try the default engine; on any exception fall
back to exactly one pydap attempt, whose outcome (success or exception) is
the outcome of the whole open. -/
def openRemote (env : Env) : Except String Dataset :=
  match env.openDefault with
  | Except.ok ds => Except.ok ds
  | Except.error _ => env.openPydap

/-- Nearest-neighbour selection along a keyed axis, modelling
`.sel(time=date_str, method='nearest')`: the element whose key is closest to
`t`; on a tie the later element is kept (pandas breaks ties toward the larger
index). `none` only on an empty axis (where xarray raises a KeyError). -/
def selNearest {α : Type} (key : α → Int) (t : Int) : List α → Option α
  | [] => none
  | a :: rest =>
    match selNearest key t rest with
    | none => some a
    | some b => if (key a - t).natAbs < (key b - t).natAbs then some a else some b

/-- The latitude labels `.sel(lat=slice(42, 28))` keeps: on the source's
monotonically decreasing latitude axis the label slice keeps exactly the
coordinates in [28, 42], in axis order. -/
def latKeep (x : ℚ) : Bool := decide (28 ≤ x) && decide (x ≤ 42)

/-- The longitude labels `.sel(lon=slice(120, 135))` keeps: on the source's
monotonically increasing longitude axis the label slice keeps exactly the
coordinates in [120, 135], in axis order. -/
def lonKeep (x : ℚ) : Bool := decide (120 ≤ x) && decide (x ≤ 135)

/-- Crop one latitude row to the selected longitudes. -/
def sliceRow (lon : List ℚ) (row : List Val) : List Val :=
  ((lon.zip row).filter (fun p => lonKeep p.1)).map (fun p => p.2)

/-- Line 64 of the source: crop a `[lat][lon]` slab to the box
28–42°N × 120–135°E, returning the cropped latitude axis, longitude axis and
values, each in source order. -/
def sliceSlab (lat lon : List ℚ) (slab : List (List Val)) :
    List ℚ × List ℚ × List (List Val) :=
  (lat.filter latKeep, lon.filter lonKeep,
   ((lat.zip slab).filter (fun p => latKeep p.1)).map (fun p => sliceRow lon p.2))

/-- Numpy/xarray `.squeeze()` on the shape: every dimension of size 1 is
removed, the others keep their order and sizes. -/
def squeezeDims (dims : List (String × Nat)) : List (String × Nat) :=
  dims.filter (fun p => p.2 != 1)

/-- The `DataArray` the fetch returns: remaining dimensions after `.squeeze()`,
the cropped coordinate axes, the materialised values (`.load()` is a no-op in
the model) and the units attribute carried over from the source variable. -/
structure SlicedArray where
  dims : List (String × Nat)
  lat : List ℚ
  lon : List ℚ
  values : List (List Val)
  units : String
deriving DecidableEq

/-- Numpy `.size`: the number of elements of the array. -/
def SlicedArray.toSize (a : SlicedArray) : Nat := (a.values.map List.length).sum

/-- Line 72 of the source, `np.all(np.isnan(da.values))`: true when every cell
is missing — vacuously true for an array with no cells, as `np.all` is. -/
def allNaN (slab : List (List Val)) : Bool :=
  slab.all (fun row => row.all (fun v => v.isNone))

/-- The body of the `try:` block of `load_and_slice_data` (lines 53–75):
open the remote dataset (with the pydap fallback), select the nearest time
slice of `air`, crop to the box, squeeze, and return `none` when every value
is NaN, `some` grid otherwise. An `Except.error` is an exception escaping the
`try:` body. No unit conversion is performed anywhere on this path. -/
def fetchBody (env : Env) (t : Int) : Except String (Option SlicedArray) :=
  match openRemote env with
  | Except.error e => Except.error e
  | Except.ok ds =>
    match selNearest (fun p => p.1) t (ds.times.zip ds.air) with
    | none => Except.error "KeyError: empty time axis"
    | some p =>
      let s := sliceSlab ds.lat ds.lon p.2
      let da : SlicedArray :=
        { dims := squeezeDims [("lat", s.1.length), ("lon", s.2.1.length)]
          lat := s.1
          lon := s.2.1
          values := s.2.2
          units := ds.airUnits }
      if allNaN s.2.2 then Except.ok none else Except.ok (some da)

/-- A Streamlit UI effect emitted while fetching. -/
inductive UIMsg
  | errorMsg (s : String)
  | infoMsg (s : String)
deriving DecidableEq

/-- Lines 43–80 of the source, `load_and_slice_data`: run the `try:` body;
the `except Exception` handler turns any exception into `st.error` plus
`st.info` remediation messages and the return value `None`. The pair is
(returned value, emitted messages). -/
def load_and_slice_data (env : Env) (t : Int) : Option SlicedArray × List UIMsg :=
  match fetchBody env t with
  | Except.ok r => (r, [])
  | Except.error e =>
      (none,
       [UIMsg.errorMsg ("데이터를 불러오는 중 오류가 발생했습니다: " ++ e),
        UIMsg.infoMsg "연도별 파일만 제공됩니다. 네트워크(방화벽/SSL) 또는 엔진(pydap, netCDF4) 설치 문제일 수 있어요."])

/-- What the main logic (lines 145–162) does with the fetched value. -/
inductive Outcome
  | showMap
  | warnNoData
  | stopApp
deriving DecidableEq

/-- Lines 145–162 of the source: a non-`None` grid with positive size is
rendered; a non-`None` grid of size 0 gets the "no data for this date"
warning; `None` reaches `st.stop()`. -/
def mainDispatch (r : Option SlicedArray) : Outcome :=
  match r with
  | some da => if da.toSize > 0 then Outcome.showMap else Outcome.warnNoData
  | none => Outcome.stopApp

/-- Line 94 of the source: `TwoSlopeNorm(vmin=-5, vcenter=10, vmax=30)`. -/
structure TwoSlopeNorm where
  vmin : ℚ
  vcenter : ℚ
  vmax : ℚ
deriving DecidableEq

/-- The graticule drawn on the map: labelled (with the top and right label
flags) or unlabelled. -/
inductive Graticule
  | labeled (topLabels rightLabels : Bool)
  | unlabeled
deriving DecidableEq

/-- Line 113 of the source: `ax.gridlines(draw_labels=True, ...)` followed by
suppressing top and right labels. The call raises when the rendering backend
does not support label drawing for this projection; `labelsSupported` is that
backend capability. -/
def gridlinesLabeled (labelsSupported : Bool) : Except String Graticule :=
  if labelsSupported then Except.ok (Graticule.labeled false false)
  else Except.error "label drawing unsupported for this projection"

/-- Lines 112–117 of the source: the `try`/`except` around the labelled
gridlines call — on an exception, draw an unlabelled graticule instead. -/
def drawGraticule (labelsSupported : Bool) : Graticule :=
  match gridlinesLabeled labelsSupported with
  | Except.ok g => g
  | Except.error _ => Graticule.unlabeled

/-- The figure `create_map_figure` builds: color normalisation, colormap,
graticule, colorbar label and title. -/
structure Figure where
  norm : TwoSlopeNorm
  cmap : String
  graticule : Graticule
  colorbarLabel : String
  title : String
deriving DecidableEq

/-- Lines 83–125 of the source, `create_map_figure`: return `None` for an
absent (`None`) or empty (size 0) grid; otherwise build the figure with the
fixed norm (−5, 10, 30), the coolwarm colormap, the graticule (labelled when
the backend supports it, otherwise the unlabelled fallback), the Celsius
colorbar label and the localised date title. -/
def create_map_figure (data_array : Option SlicedArray) (labelsSupported : Bool)
    (dateStr : String) : Option Figure :=
  match data_array with
  | none => none
  | some da =>
    if da.toSize = 0 then none
    else
      some
        { norm := { vmin := -5, vcenter := 10, vmax := 30 }
          cmap := "coolwarm"
          graticule := drawGraticule labelsSupported
          colorbarLabel := "지상 2m 기온 (°C)"
          title := "지상 2m 기온: " ++ dateStr }

/-- Epoch day number (days since 1970-01-01) of 1948-01-01. -/
def date19480101 : Int := -8036

/-- The state of a `st.sidebar.date_input` widget, dates as epoch days. -/
structure DateInputCfg where
  value : Int
  minValue : Int
  maxValue : Int
deriving DecidableEq

/-- Lines 131–137 of the source: `default_date = today - 2 days`, then
`st.sidebar.date_input(value=default_date, min_value=date(1948,1,1),
max_value=default_date)`. -/
def sidebarDateInput (today : Int) : DateInputCfg :=
  let default_date := today - 2
  { value := default_date, minValue := date19480101, maxValue := default_date }

/-- A date the widget lets the user pick: within [minValue, maxValue]. -/
def DateInputCfg.accepts (c : DateInputCfg) (d : Int) : Bool :=
  decide (c.minValue ≤ d) && decide (d ≤ c.maxValue)

/-! ### Concrete fixtures -/

/-- The uniform-283.15 K source value of the unit-conversion test case. -/
def kelvinUniform : ℚ := 28315 / 100

/-- A remote dataset holding 283.15 K at every cell of a 2×2 in-box grid,
with the NCEP units attribute. -/
def dsUniformK : Dataset :=
  { times := [0]
    lat := [40, 30]
    lon := [125, 130]
    air := [[[some kelvinUniform, some kelvinUniform],
             [some kelvinUniform, some kelvinUniform]]]
    airUnits := "degK" }

/-- An environment whose default engine succeeds with `dsUniformK`. -/
def envUniformK : Env :=
  { openDefault := Except.ok dsUniformK, openPydap := Except.error "unused" }

/-- A remote dataset whose every value is the NaN sentinel. -/
def dsAllNaN : Dataset :=
  { times := [0]
    lat := [40, 30]
    lon := [125, 130]
    air := [[[none, none], [none, none]]]
    airUnits := "degK" }

/-- An environment whose default engine succeeds with `dsAllNaN`. -/
def envAllNaN : Env :=
  { openDefault := Except.ok dsAllNaN, openPydap := Except.error "unused" }

/-- An environment where both open attempts raise. -/
def envBothFail : Env :=
  { openDefault := Except.error "default engine failed"
    openPydap := Except.error "pydap failed" }

/-- The grid `load_and_slice_data` produces from `envUniformK`. -/
def daUniformK : SlicedArray :=
  { dims := [("lat", 2), ("lon", 2)]
    lat := [40, 30]
    lon := [125, 130]
    values := [[some kelvinUniform, some kelvinUniform],
               [some kelvinUniform, some kelvinUniform]]
    units := "degK" }

/-- A size-0 grid (an empty spatial slice). -/
def emptyDA : SlicedArray :=
  { dims := [], lat := [], lon := [], values := [], units := "degK" }

/-- A tiny grid whose values all lie below the −5 scale minimum. -/
def daCold : SlicedArray :=
  { dims := [("lat", 2), ("lon", 1)], lat := [40, 30], lon := [125]
    values := [[some (-20)], [some (-20)]], units := "degK" }

/-- A tiny grid whose values all lie above the 30 scale maximum. -/
def daHot : SlicedArray :=
  { dims := [("lat", 2), ("lon", 1)], lat := [40, 30], lon := [125]
    values := [[some 40], [some 40]], units := "degK" }

/-! ### Theorems -/

/-- One-step unfolding of `selNearest` on a nonempty axis. -/
theorem selNearest_cons {α : Type} (key : α → Int) (t : Int) (a : α) (rest : List α) :
    selNearest key t (a :: rest) =
      match selNearest key t rest with
      | none => some a
      | some b =>
          if (key a - t).natAbs < (key b - t).natAbs then some a else some b := rfl

/-- C1 fails on the code (code bug): on a uniform 283.15 K source grid the
fetch returns the raw kelvin value 283.15 at every cell — not 283.15 − 273.15
= 10 — and the grid's unit tag is the source's "degK", not "degC". No
subtraction of 273.15 and no "degC" tagging occur anywhere in
`load_and_slice_data`, even though `create_map_figure` labels the colorbar in
°C and centers its color scale at 10 °C. -/
theorem c1_fetch_keeps_raw_kelvin_and_degK_tag :
    (load_and_slice_data envUniformK 0).1 = some daUniformK ∧
    daUniformK.units = "degK" ∧
    daUniformK.units ≠ "degC" ∧
    kelvinUniform - 27315 / 100 = 10 ∧
    kelvinUniform ≠ 10 := by
  refine ⟨rfl, rfl, by decide, by norm_num [kelvinUniform], by norm_num [kelvinUniform]⟩

/-- C2 fails as stated: on an all-NaN slice the fetch returns `none` — the
very same value a terminal fetch failure returns — and the caller routes it
to `st.stop()`, not to the "no data for this date" warning. -/
theorem c2_allnan_equals_failure_counterexample :
    (load_and_slice_data envAllNaN 0).1 = (load_and_slice_data envBothFail 0).1 ∧
    mainDispatch (load_and_slice_data envAllNaN 0).1 = Outcome.stopApp ∧
    mainDispatch (load_and_slice_data envAllNaN 0).1 ≠ Outcome.warnNoData := by
  refine ⟨rfl, rfl, by decide⟩

/-- C2 (amended): when every value of the sliced grid is NaN the fetch
returns `none` with no message — the same return value as a terminal failure,
which additionally emits the error and remediation messages — and the caller
sends any `none` to `st.stop()`; the "no data for this date" warning fires
exactly for a non-`none` grid of size 0, never for the all-NaN case. -/
theorem c2_allnan_folded_into_none :
    ∀ (env : Env) (t : Int),
    (∀ ds p, openRemote env = Except.ok ds →
       selNearest (fun q => q.1) t (ds.times.zip ds.air) = some p →
       allNaN (sliceSlab ds.lat ds.lon p.2).2.2 = true →
       load_and_slice_data env t = (none, [])) ∧
    (∀ e, fetchBody env t = Except.error e →
       (load_and_slice_data env t).1 = none ∧ (load_and_slice_data env t).2 ≠ []) ∧
    (∀ r, mainDispatch r = Outcome.warnNoData ↔ ∃ da, r = some da ∧ da.toSize = 0) ∧
    mainDispatch none = Outcome.stopApp := by
  intro env t
  refine ⟨?_, ?_, ?_, rfl⟩
  · intro ds p hopen hsel hnan
    simp [load_and_slice_data, fetchBody, hopen, hsel, hnan]
  · intro e he
    simp [load_and_slice_data, he]
  · intro r
    cases r with
    | none => simp [mainDispatch]
    | some da =>
      constructor
      · intro h
        refine ⟨da, rfl, ?_⟩
        by_contra hne
        have hpos : da.toSize > 0 := Nat.pos_of_ne_zero hne
        simp [mainDispatch, hpos] at h
      · rintro ⟨da', heq, hz⟩
        cases heq
        simp [mainDispatch, hz]

/-- C3: whenever the fetch returns a grid (rather than `none` for Empty or
failure) from a source whose latitude axis is strictly descending and whose
longitude axis is strictly ascending (the NCEP source convention), the grid's
latitudes all lie in [28, 42] and are strictly descending, its longitudes all
lie in [120, 135] and are strictly ascending, and no remaining dimension has
size 1. -/
theorem c3_fetch_grid_invariants (env : Env) (t : Int) (ds : Dataset) (g : SlicedArray)
    (hopen : openRemote env = Except.ok ds)
    (hlat : ds.lat.Pairwise (fun a b => b < a))
    (hlon : ds.lon.Pairwise (fun a b => a < b))
    (hres : (load_and_slice_data env t).1 = some g) :
    (∀ x ∈ g.lat, 28 ≤ x ∧ x ≤ 42) ∧
    g.lat.Pairwise (fun a b => b < a) ∧
    (∀ x ∈ g.lon, 120 ≤ x ∧ x ≤ 135) ∧
    g.lon.Pairwise (fun a b => a < b) ∧
    (∀ p ∈ g.dims, p.2 ≠ 1) := by
  have hfb : fetchBody env t = Except.ok (some g) := by
    cases hf : fetchBody env t with
    | error e => simp [load_and_slice_data, hf] at hres
    | ok r =>
      simp [load_and_slice_data, hf] at hres
      rw [hres]
  simp only [fetchBody, hopen] at hfb
  cases hsel : selNearest (fun p => p.1) t (ds.times.zip ds.air) with
  | none =>
    simp only [hsel] at hfb
    exact Except.noConfusion hfb
  | some p =>
    simp only [hsel] at hfb
    by_cases hnan : allNaN (sliceSlab ds.lat ds.lon p.2).2.2 = true
    · rw [if_pos hnan] at hfb
      exact Option.noConfusion (Except.ok.inj hfb)
    · rw [if_neg hnan] at hfb
      have hg := (Option.some.inj (Except.ok.inj hfb)).symm
      subst hg
      simp only [sliceSlab]
      refine ⟨?_, ?_, ?_, ?_, ?_⟩
      · intro x hx
        have hk := (List.mem_filter.mp hx).2
        simpa [latKeep] using hk
      · exact hlat.sublist (List.filter_sublist ds.lat)
      · intro x hx
        have hk := (List.mem_filter.mp hx).2
        simpa [lonKeep] using hk
      · exact hlon.sublist (List.filter_sublist ds.lon)
      · intro q hq
        have hk := (List.mem_filter.mp hq).2
        simpa using hk

/-- Witness for C3 at a concrete environment: the 2×2 grid fetched from
`envUniformK` satisfies every invariant. -/
theorem c3_fetch_grid_invariants_witness :
    (∀ x ∈ daUniformK.lat, 28 ≤ x ∧ x ≤ 42) ∧
    daUniformK.lat.Pairwise (fun a b => b < a) ∧
    (∀ x ∈ daUniformK.lon, 120 ≤ x ∧ x ≤ 135) ∧
    daUniformK.lon.Pairwise (fun a b => a < b) ∧
    (∀ p ∈ daUniformK.dims, p.2 ≠ 1) :=
  c3_fetch_grid_invariants envUniformK 0 dsUniformK daUniformK rfl
    (by decide) (by decide) rfl

/-- C4: time selection is nearest-neighbour — on any nonempty keyed axis
(whether or not the requested timestamp occurs exactly), `selNearest`, the
model of `.sel(time=..., method='nearest')`, returns an element of the axis
whose key minimises the distance to the requested timestamp; it never fails
on a nonempty axis. -/
theorem c4_nearest_time_selection {α : Type} (key : α → Int) (t : Int) (l : List α)
    (h : l ≠ []) :
    ∃ a, selNearest key t l = some a ∧ a ∈ l ∧
      ∀ b ∈ l, (key a - t).natAbs ≤ (key b - t).natAbs := by
  induction l with
  | nil => exact absurd rfl h
  | cons a rest ih =>
    cases hsel : selNearest key t rest with
    | none =>
      have hrest : rest = [] := by
        cases rest with
        | nil => rfl
        | cons c cs =>
          obtain ⟨b, hb, -, -⟩ := ih (List.cons_ne_nil c cs)
          rw [hb] at hsel
          exact Option.noConfusion hsel
      refine ⟨a, ?_, List.mem_cons_self a rest, ?_⟩
      · rw [selNearest_cons, hsel]
      · intro x hx
        rcases List.mem_cons.mp hx with h1 | h2
        · subst h1; exact le_refl _
        · rw [hrest] at h2; exact absurd h2 (List.not_mem_nil x)
    | some b =>
      have hne : rest ≠ [] := by
        intro hc
        rw [hc] at hsel
        exact Option.noConfusion hsel
      obtain ⟨b', hb', hm, hmin⟩ := ih hne
      rw [hb'] at hsel
      have hbb := Option.some.inj hsel
      subst hbb
      by_cases hlt : (key a - t).natAbs < (key b' - t).natAbs
      · refine ⟨a, ?_, List.mem_cons_self a rest, ?_⟩
        · rw [selNearest_cons, hb']
          exact if_pos hlt
        · intro x hx
          rcases List.mem_cons.mp hx with h1 | h2
          · subst h1; exact le_refl _
          · exact le_of_lt (lt_of_lt_of_le hlt (hmin x h2))
      · refine ⟨b', ?_, List.mem_cons_of_mem a hm, ?_⟩
        · rw [selNearest_cons, hb']
          exact if_neg hlt
        · intro x hx
          rcases List.mem_cons.mp hx with h1 | h2
          · subst h1; exact Nat.le_of_not_lt hlt
          · exact hmin x h2

/-- Witness for C4 at a concrete axis: the requested timestamp 30 occurs
nowhere on the axis [0, 100], yet selection returns a closest element. -/
theorem c4_nearest_time_selection_witness :
    ((30 : Int) ∉ ([0, 100] : List Int)) ∧
    ∃ a, selNearest (fun x => x) 30 [0, 100] = some a ∧
      a ∈ ([0, 100] : List Int) ∧
      ∀ b ∈ ([0, 100] : List Int), (a - 30).natAbs ≤ (b - 30).natAbs :=
  ⟨by decide, c4_nearest_time_selection (fun x => x) 30 [0, 100] (by decide)⟩

/-- C5: the open policy is exactly two-step — when the default engine
succeeds its dataset is the result and the pydap backend plays no part
(the result is the same whatever pydap would have returned); when the
default engine raises, the outcome is exactly the single pydap attempt; and
when both raise, the open is a terminal failure for this request, so the
fetch returns `none` for every requested date (no further retry exists in
`load_and_slice_data`). -/
theorem c5_open_two_step_policy :
    ∀ env : Env,
    (∀ ds, env.openDefault = Except.ok ds →
       ∀ alt : Except String Dataset,
         openRemote { openDefault := env.openDefault, openPydap := alt } =
           Except.ok ds) ∧
    (∀ e, env.openDefault = Except.error e → openRemote env = env.openPydap) ∧
    (∀ e1 e2, env.openDefault = Except.error e1 → env.openPydap = Except.error e2 →
       openRemote env = Except.error e2 ∧
       ∀ t : Int, (load_and_slice_data env t).1 = none) := by
  intro env
  refine ⟨?_, ?_, ?_⟩
  · intro ds h alt
    simp [openRemote, h]
  · intro e h
    simp [openRemote, h]
  · intro e1 e2 h1 h2
    have hop : openRemote env = Except.error e2 := by
      simp [openRemote, h1, h2]
    refine ⟨hop, ?_⟩
    intro t
    simp [load_and_slice_data, fetchBody, hop]

/-- C6: `create_map_figure` returns no figure immediately for an absent
(`none`) grid and for a size-0 grid, for every date string and backend. -/
theorem c6_render_none_on_absent_or_empty (da : SlicedArray) (ls : Bool) (d : String)
    (h : da.toSize = 0) :
    create_map_figure none ls d = none ∧ create_map_figure (some da) ls d = none := by
  constructor
  · rfl
  · simp [create_map_figure, h]

/-- Witness for C6 at a concrete empty grid and date. -/
theorem c6_render_none_witness :
    create_map_figure none true "2023-07-15" = none ∧
    create_map_figure (some emptyDA) true "2023-07-15" = none :=
  c6_render_none_on_absent_or_empty emptyDA true "2023-07-15" rfl

/-- C7: for every nonempty grid — whatever its values, including grids lying
entirely below −5 or entirely above 30 — `create_map_figure` succeeds
(returns a figure) and its color normalisation is the fixed three-point scale
vmin = −5, vcenter = 10, vmax = 30; the norm is a constant of the code, never
derived from the data. -/
theorem c7_fixed_color_norm (da : SlicedArray) (ls : Bool) (d : String)
    (h : 0 < da.toSize) :
    ∃ f, create_map_figure (some da) ls d = some f ∧
      f.norm = { vmin := -5, vcenter := 10, vmax := 30 } ∧
      f.cmap = "coolwarm" := by
  have hne : da.toSize ≠ 0 := Nat.pos_iff_ne_zero.mp h
  refine ⟨{ norm := { vmin := -5, vcenter := 10, vmax := 30 }
            cmap := "coolwarm"
            graticule := drawGraticule ls
            colorbarLabel := "지상 2m 기온 (°C)"
            title := "지상 2m 기온: " ++ d }, ?_, rfl, rfl⟩
  simp [create_map_figure, hne]

/-- Witness for C7 at two concrete grids, one entirely below −5 and one
entirely above 30: both render with the same fixed norm. -/
theorem c7_fixed_color_norm_witness :
    (∀ row ∈ daCold.values, ∀ v ∈ row, v = some (-20) ∧ (-20 : ℚ) < -5) ∧
    (∀ row ∈ daHot.values, ∀ v ∈ row, v = some 40 ∧ (30 : ℚ) < 40) ∧
    (∃ f, create_map_figure (some daCold) true "2023-07-15" = some f ∧
      f.norm = { vmin := -5, vcenter := 10, vmax := 30 } ∧ f.cmap = "coolwarm") ∧
    (∃ f, create_map_figure (some daHot) true "2023-07-15" = some f ∧
      f.norm = { vmin := -5, vcenter := 10, vmax := 30 } ∧ f.cmap = "coolwarm") :=
  ⟨by decide, by decide,
   c7_fixed_color_norm daCold true "2023-07-15" (by decide),
   c7_fixed_color_norm daHot true "2023-07-15" (by decide)⟩

/-- C8: when the labelled-gridlines call raises (the backend does not support
label drawing), `create_map_figure` still returns a figure for every nonempty
grid, with the unlabelled graticule — the failure is recovered locally and
never surfaces. -/
theorem c8_graticule_fallback (da : SlicedArray) (ls : Bool) (d e : String)
    (h : 0 < da.toSize) (hfail : gridlinesLabeled ls = Except.error e) :
    ∃ f, create_map_figure (some da) ls d = some f ∧
      f.graticule = Graticule.unlabeled := by
  have hls : ls = false := by
    cases ls
    · rfl
    · simp [gridlinesLabeled] at hfail
  subst hls
  have hne : da.toSize ≠ 0 := Nat.pos_iff_ne_zero.mp h
  refine ⟨{ norm := { vmin := -5, vcenter := 10, vmax := 30 }
            cmap := "coolwarm"
            graticule := drawGraticule false
            colorbarLabel := "지상 2m 기온 (°C)"
            title := "지상 2m 기온: " ++ d }, ?_, rfl⟩
  simp [create_map_figure, hne]

/-- Witness for C8 at a concrete grid with the label-unsupported backend. -/
theorem c8_graticule_fallback_witness :
    ∃ f, create_map_figure (some daUniformK) false "2023-07-15" = some f ∧
      f.graticule = Graticule.unlabeled :=
  c8_graticule_fallback daUniformK false "2023-07-15"
    "label drawing unsupported for this projection" (by decide) rfl

/-- C9: the sidebar date input has minimum 1948-01-01, maximum today − 2
days, and default value today − 2 days; it accepts exactly the dates between
those bounds. -/
theorem c9_date_input_bounds :
    ∀ today : Int,
    (sidebarDateInput today).value = today - 2 ∧
    (sidebarDateInput today).minValue = date19480101 ∧
    (sidebarDateInput today).maxValue = today - 2 ∧
    ∀ d : Int, (sidebarDateInput today).accepts d = true ↔
      (date19480101 ≤ d ∧ d ≤ today - 2) := by
  intro today
  refine ⟨rfl, rfl, rfl, ?_⟩
  intro d
  simp [DateInputCfg.accepts, sidebarDateInput]

/-- C10: `load_and_slice_data` is total — for every environment and date it
returns either a grid or `none`, and every exception escaping the `try:` body
(opening, selecting, slicing, loading or the NaN check) is caught by the
enclosing handler, which reports the error messages and returns `none`. -/
theorem c10_fetch_never_propagates_exception :
    ∀ (env : Env) (t : Int),
    ((load_and_slice_data env t).1 = none ∨
      ∃ g, (load_and_slice_data env t).1 = some g) ∧
    ∀ e, fetchBody env t = Except.error e →
      (load_and_slice_data env t).1 = none ∧
      UIMsg.errorMsg ("데이터를 불러오는 중 오류가 발생했습니다: " ++ e) ∈
        (load_and_slice_data env t).2 := by
  intro env t
  constructor
  · cases h : (load_and_slice_data env t).1 with
    | none => exact Or.inl rfl
    | some g => exact Or.inr ⟨g, rfl⟩
  · intro e he
    simp [load_and_slice_data, he]

end StApp
